import Mathlib

/-!
Verification of the LOG-a-TEC channel-gain measurement example
(`logatec.py`).  The remote-node collaborator interface (vesna-alh-tools:
configuration catalogs, program submission, completion polling, sample
retrieval) is modelled as an explicit environment, and every externally
visible action of `NodePair.measure` / `NodePair.get_channel_gain` is
recorded in an event trace.  Times, frequencies and power samples are
rationals (every floating-point value is a rational); the gain arithmetic
(`db_to_mw`, `mw_to_db`, means) is carried out over the reals.
-/

/-- Opaque resolved transmit configuration (`get_tx_config` result). -/
structure TxConfig where
  id : ℕ
  deriving DecidableEq, Repr

/-- Opaque resolved sweep/sensing configuration (`get_sweep_config` result). -/
structure SweepConfig where
  id : ℕ
  deriving DecidableEq, Repr

/-- `SignalGeneratorProgram(tx_config, time_start, time_duration)`. -/
structure SignalGeneratorProgram where
  tx_config : TxConfig
  time_start : ℚ
  time_duration : ℚ
  deriving DecidableEq, Repr

/-- `SpectrumSensorProgram(sweep_config, time_start, time_duration, slot_id)`. -/
structure SpectrumSensorProgram where
  sweep_config : SweepConfig
  time_start : ℚ
  time_duration : ℚ
  slot_id : ℕ
  deriving DecidableEq, Repr

/-- Externally visible actions taken by the code, in order. -/
inductive Event where
  | queryTxConfigList : Event
  | querySweepConfigList : Event
  | generatorProgram : SignalGeneratorProgram → Event
  | sensorProgram : SpectrumSensorProgram → Event
  | isComplete : SpectrumSensorProgram → Bool → Event
  | sleep : ℚ → Event
  | retrieve : SpectrumSensorProgram → Event
  deriving DecidableEq, Repr

/-- The testbed environment: the two nodes' configuration catalogs
(`get_tx_config` / `get_sweep_config` lookups on the cached config lists),
how many times `is_complete` reports `false` before reporting `true`, and
the rows of samples `retrieve(...).get_data()` returns for a submitted
sensing program (each row's first column is the power in dBm). -/
structure Env where
  txCatalog : ℚ → ℚ → Option TxConfig
  rxCatalog : ℚ → ℚ → ℚ → Option SweepConfig
  polls : ℕ
  retrieveData : SpectrumSensorProgram → List (List ℚ)

/-- The cached state of a `NodePair`: the two config lists queried once in
the constructor (`generator_cl`, `sensor_cl`), represented by their lookup
functions. -/
structure NodePair where
  generator_cl : ℚ → ℚ → Option TxConfig
  sensor_cl : ℚ → ℚ → ℚ → Option SweepConfig

/-- `NodePair.__init__`: query both nodes for their configuration lists,
once, and cache them. -/
def NodePair.init (env : Env) : NodePair × List Event :=
  (⟨env.txCatalog, env.rxCatalog⟩, [Event.queryTxConfigList, Event.querySweepConfigList])

/-- Events produced by `while not self.sensor.is_complete(sensor_p):
time.sleep(2)`: the environment answers `false` to the first `n` polls and
`true` to the last one; the code sleeps 2 time units after each `false`. -/
def pollEvents : ℕ → SpectrumSensorProgram → List Event
  | 0, p => [Event.isComplete p true]
  | Nat.succ n, p => Event.isComplete p false :: Event.sleep 2 :: pollEvents n p

/-- The receiver half of `NodePair.measure`: resolve the sweep
configuration for the single frequency `f_hz` (start = stop = `f_hz`,
step 400e3), submit the sensing program at `now + 3` for 10 units with
slot 1, poll until complete, retrieve, and return column 0 of the data. -/
def NodePair.senseAndRetrieve (pair : NodePair) (env : Env) (now f_hz : ℚ) :
    Except String (List ℚ) × List Event :=
  match pair.sensor_cl f_hz f_hz 400000 with
  | none => (Except.error "Node can not scan specified frequency range.", [])
  | some sweep_config =>
    let sensor_p : SpectrumSensorProgram := ⟨sweep_config, now + 3, 10, 1⟩
    (Except.ok ((env.retrieveData sensor_p).map List.headI),
      Event.sensorProgram sensor_p ::
        (pollEvents env.polls sensor_p ++ [Event.retrieve sensor_p]))

/-- `NodePair.measure(f_hz, ptx_dbm)`: if transmission is requested,
resolve the transmit configuration (raising on a miss) and submit the
generator program at `now + 1` for 14 units; then run the sensing half. -/
def NodePair.measure (pair : NodePair) (env : Env) (now f_hz : ℚ)
    (ptx_dbm : Option ℚ) : Except String (List ℚ) × List Event :=
  match ptx_dbm with
  | none => pair.senseAndRetrieve env now f_hz
  | some ptx =>
    match pair.generator_cl f_hz ptx with
    | none => (Except.error "Node can not scan specified frequency range.", [])
    | some tx_config =>
      let res := pair.senseAndRetrieve env now f_hz
      (res.fst, Event.generatorProgram ⟨tx_config, now + 1, 14⟩ :: res.snd)

/-- `db_to_mw(db) = 10.**(db/10.)`. -/
noncomputable def db_to_mw (db : ℝ) : ℝ := (10 : ℝ) ^ (db / 10)

/-- `mw_to_db(mw) = 10.*np.log10(mw)`. -/
noncomputable def mw_to_db (mw : ℝ) : ℝ := 10 * Real.logb 10 mw

/-- `np.mean` of a series. -/
noncomputable def mean (l : List ℝ) : ℝ := l.sum / l.length

/-- The mean linear received-signal power contributing to the gain formula:
`prx_mw_mean = np.mean(db_to_mw(prx_dbm))`. -/
noncomputable def prx_mw_mean_of (prx_dbm : List ℚ) : ℝ :=
  mean (prx_dbm.map (fun d : ℚ => db_to_mw (d : ℝ)))

/-- The gain arithmetic of `get_channel_gain`, as a function of the two
measured series and the transmit power: convert everything to linear
milliwatts, take the means, `h_mean = (prx_mw_mean - pnoise_mw_mean)/ptx_mw`,
and convert back to decibels. -/
noncomputable def gainFromSeries (pnoise_dbm prx_dbm : List ℚ) (ptx_dbm : ℚ) : ℝ :=
  let ptx_mw := db_to_mw (ptx_dbm : ℝ)
  let pnoise_mw_mean := mean (pnoise_dbm.map (fun d : ℚ => db_to_mw (d : ℝ)))
  let prx_mw_mean := prx_mw_mean_of prx_dbm
  mw_to_db ((prx_mw_mean - pnoise_mw_mean) / ptx_mw)

/-- `NodePair.get_channel_gain(f_hz, ptx_dbm)`: measure noise with the
transmitter silent, measure received power with the transmitter on, then
apply the gain arithmetic.  `now1` and `now2` are the two `time.time()`
readings of the two `measure` calls. -/
noncomputable def NodePair.get_channel_gain (pair : NodePair) (env : Env)
    (now1 now2 f_hz ptx_dbm : ℚ) : Except String ℝ × List Event :=
  let noiseRes := pair.measure env now1 f_hz none
  match noiseRes.fst with
  | Except.error e => (Except.error e, noiseRes.snd)
  | Except.ok pnoise_dbm =>
    let sigRes := pair.measure env now2 f_hz (some ptx_dbm)
    match sigRes.fst with
    | Except.error e => (Except.error e, noiseRes.snd ++ sigRes.snd)
    | Except.ok prx_dbm =>
      (Except.ok (gainFromSeries pnoise_dbm prx_dbm ptx_dbm),
        noiseRes.snd ++ sigRes.snd)

/-- The gain formula exactly as the specification words it: every sample
converted to linear milliwatts by `10^(db/10)`, gain_linear =
(mean of the signal series − mean of the noise series) / `10^(ptx/10)`,
and the result `10·log10(gain_linear)`. -/
noncomputable def specGainDb (noise signal : List ℚ) (ptx_dbm : ℚ) : ℝ :=
  10 * Real.logb 10
    ((mean (signal.map (fun s : ℚ => (10 : ℝ) ^ ((s : ℝ) / 10)))
        - mean (noise.map (fun n : ℚ => (10 : ℝ) ^ ((n : ℝ) / 10))))
      / (10 : ℝ) ^ ((ptx_dbm : ℝ) / 10))

/-- Trace predicate: the event is a generator program submission. -/
def isGeneratorProgram : Event → Bool
  | Event.generatorProgram _ => true
  | _ => false

/-- Trace predicate: the event is a sensing program submission. -/
def isSensorProgram : Event → Bool
  | Event.sensorProgram _ => true
  | _ => false

/-- Trace predicate: the event is a sample retrieval. -/
def isRetrieve : Event → Bool
  | Event.retrieve _ => true
  | _ => false

/-- Trace predicate: a completion poll that answered `true`. -/
def isPollTrue : Event → Bool
  | Event.isComplete _ true => true
  | _ => false

/-- Trace predicate: a completion poll that answered `false`. -/
def isPollFalse : Event → Bool
  | Event.isComplete _ false => true
  | _ => false

/-- Trace predicate: a sleep between polling attempts. -/
def isSleepEvent : Event → Bool
  | Event.sleep _ => true
  | _ => false

/-- Trace predicate: a configuration-catalog query. -/
def isCatalogQuery : Event → Bool
  | Event.queryTxConfigList => true
  | Event.querySweepConfigList => true
  | _ => false

/-- Every retrieval in the trace concerns a program already reported
complete: scan left to right, remembering which programs an
`isComplete _ true` event has been seen for. -/
def retrievesAfterComplete (done : List SpectrumSensorProgram) :
    List Event → Bool
  | [] => true
  | Event.isComplete p b :: rest =>
      retrievesAfterComplete (if b then p :: done else done) rest
  | Event.retrieve p :: rest =>
      decide (p ∈ done) && retrievesAfterComplete done rest
  | _ :: rest => retrievesAfterComplete done rest

/-- Every completion poll answered `false` is immediately followed by a
sleep of exactly 2 time units. -/
def pollsSleepTwo : List Event → Bool
  | [] => true
  | [Event.isComplete _ false] => false
  | Event.isComplete _ false :: e :: rest =>
      (match e with
        | Event.sleep t => decide (t = 2)
        | _ => false) && pollsSleepTwo rest
  | _ :: rest => pollsSleepTwo rest

/-- A concrete transmit configuration for concrete evaluations. -/
def demoTx : TxConfig := ⟨0⟩

/-- A concrete sweep configuration for concrete evaluations. -/
def demoSweep : SweepConfig := ⟨0⟩

/-- A concrete environment in which both catalog lookups succeed, the node
answers `false` to one completion poll and then `true`, and every retrieval
returns the rows `[[-50], [-60]]` (power column `[-50, -60]` dBm). -/
def demoEnv : Env where
  txCatalog := fun _ _ => some demoTx
  rxCatalog := fun _ _ _ => some demoSweep
  polls := 1
  retrieveData := fun _ => [[-50], [-60]]

/-- The node pair constructed from `demoEnv`. -/
def demoPair : NodePair := (NodePair.init demoEnv).fst

/-- A concrete environment whose transmit catalog resolves every request
but whose sensing catalog resolves none. -/
def c2Env : Env where
  txCatalog := fun _ _ => some demoTx
  rxCatalog := fun _ _ _ => none
  polls := 0
  retrieveData := fun _ => []

/-- The node pair constructed from `c2Env`. -/
def c2Pair : NodePair := (NodePair.init c2Env).fst

/-- An environment identical to `demoEnv` except that every retrieval
returns the same rows in the opposite order. -/
def permEnv : Env where
  txCatalog := fun _ _ => some demoTx
  rxCatalog := fun _ _ _ => some demoSweep
  polls := 1
  retrieveData := fun _ => [[-60], [-50]]

/-- `gainFromSeries` is exactly the specification's formula. -/
lemma gainFromSeries_eq_spec (n s : List ℚ) (p : ℚ) :
    gainFromSeries n s p = specGainDb n s p := rfl

/-- Claim C1: whenever both power measurements return sample series, the
gain returned by `get_channel_gain` is `10·log10(gain_linear)` with
`gain_linear = (mean signal_mw − mean noise_mw) / 10^(ptx/10)`, every
sample being converted to linear milliwatts before averaging. -/
theorem C1_gain_formula (pair : NodePair) (env : Env)
    (now1 now2 f_hz ptx_dbm : ℚ) (swc : SweepConfig) (txc : TxConfig)
    (hs : pair.sensor_cl f_hz f_hz 400000 = some swc)
    (ht : pair.generator_cl f_hz ptx_dbm = some txc) :
    (pair.get_channel_gain env now1 now2 f_hz ptx_dbm).fst =
      Except.ok (specGainDb
        ((env.retrieveData ⟨swc, now1 + 3, 10, 1⟩).map List.headI)
        ((env.retrieveData ⟨swc, now2 + 3, 10, 1⟩).map List.headI)
        ptx_dbm) := by
  simp [NodePair.get_channel_gain, NodePair.measure, NodePair.senseAndRetrieve,
    hs, ht, gainFromSeries_eq_spec]

/-- Witness for C1 at a concrete environment. -/
theorem C1_gain_formula_witness :
    demoPair.sensor_cl 5 5 400000 = some demoSweep ∧
    demoPair.generator_cl 5 0 = some demoTx ∧
    (demoPair.get_channel_gain demoEnv 0 7 5 0).fst =
      Except.ok (specGainDb [-50, -60] [-50, -60] 0) :=
  ⟨rfl, rfl, C1_gain_formula demoPair demoEnv 0 7 5 0 demoSweep demoTx rfl rfl⟩

/-- Claim C9: converting a positive linear power to decibels and back is
the identity. -/
theorem C9_roundtrip (x : ℝ) (hx : 0 < x) : db_to_mw (mw_to_db x) = x := by
  unfold db_to_mw mw_to_db
  have h : 10 * Real.logb 10 x / 10 = Real.logb 10 x := by ring
  rw [h, Real.rpow_logb (by norm_num) (by norm_num) hx]

/-- Witness for C9 at `x = 2`. -/
theorem C9_roundtrip_witness : (0 : ℝ) < 2 ∧ db_to_mw (mw_to_db 2) = 2 :=
  ⟨by norm_num, C9_roundtrip 2 (by norm_num)⟩

/-- Claim C2 as stated is false: when the transmit lookup succeeds but the
sensing lookup returns `none`, `measure` raises the capability error only
after the generator program has already been submitted to the transmitter. -/
theorem C2_counterexample :
    c2Pair.sensor_cl 5 5 400000 = none ∧
    (c2Pair.measure c2Env 0 5 (some 0)).fst =
      Except.error "Node can not scan specified frequency range." ∧
    (c2Pair.measure c2Env 0 5 (some 0)).snd.countP isGeneratorProgram = 1 :=
  ⟨rfl, rfl, rfl⟩

/-- Claim C2 (amended): whenever either lookup returns `none`, `measure`
fails with the capability-mismatch error, and neither a sensing program
nor a retrieval is ever issued (though, when only the sensing lookup
fails, the transmit program has already been submitted). -/
theorem C2_amended (pair : NodePair) (env : Env) (now f_hz ptx : ℚ)
    (h : pair.generator_cl f_hz ptx = none ∨
      pair.sensor_cl f_hz f_hz 400000 = none) :
    (pair.measure env now f_hz (some ptx)).fst =
      Except.error "Node can not scan specified frequency range." ∧
    (pair.measure env now f_hz (some ptx)).snd.countP isSensorProgram = 0 ∧
    (pair.measure env now f_hz (some ptx)).snd.countP isRetrieve = 0 := by
  cases h with
  | inl h1 => simp [NodePair.measure, h1]
  | inr h2 =>
    cases h1 : pair.generator_cl f_hz ptx with
    | none => simp [NodePair.measure, h1]
    | some txc =>
      simp [NodePair.measure, NodePair.senseAndRetrieve, h1, h2,
        isSensorProgram, isRetrieve]

/-- Witness for C2 (amended) at a concrete environment whose sensing
catalog is empty. -/
theorem C2_amended_witness :
    (c2Pair.generator_cl 5 0 = none ∨ c2Pair.sensor_cl 5 5 400000 = none) ∧
    ((c2Pair.measure c2Env 0 5 (some 0)).fst =
        Except.error "Node can not scan specified frequency range." ∧
      (c2Pair.measure c2Env 0 5 (some 0)).snd.countP isSensorProgram = 0 ∧
      (c2Pair.measure c2Env 0 5 (some 0)).snd.countP isRetrieve = 0) :=
  ⟨Or.inr rfl, C2_amended c2Pair c2Env 0 5 0 (Or.inr rfl)⟩

/-- Claim C3: with transmission requested and both lookups succeeding, the
generator program runs from `now + 1` for 14 units and the sensing program
from `now + 3` for 10 units, so the sensing window is strictly nested in
the transmit window with a margin of at least 2 units on each side. -/
theorem C3_schedule (pair : NodePair) (env : Env) (now f_hz ptx : ℚ)
    (txc : TxConfig) (swc : SweepConfig)
    (ht : pair.generator_cl f_hz ptx = some txc)
    (hs : pair.sensor_cl f_hz f_hz 400000 = some swc) :
    (pair.measure env now f_hz (some ptx)).snd =
      Event.generatorProgram ⟨txc, now + 1, 14⟩ ::
        Event.sensorProgram ⟨swc, now + 3, 10, 1⟩ ::
          (pollEvents env.polls ⟨swc, now + 3, 10, 1⟩ ++
            [Event.retrieve ⟨swc, now + 3, 10, 1⟩]) ∧
    now + 1 ≤ now + 3 ∧
    (now + 3) + 10 ≤ (now + 1) + 14 ∧
    (10 : ℚ) < 14 ∧
    (2 : ℚ) ≤ (now + 3) - (now + 1) ∧
    (2 : ℚ) ≤ ((now + 1) + 14) - ((now + 3) + 10) := by
  refine ⟨?_, by linarith, by linarith, by norm_num, by linarith, by linarith⟩
  simp [NodePair.measure, NodePair.senseAndRetrieve, ht, hs]

/-- Witness for C3 at a concrete environment and `now = 0`. -/
theorem C3_schedule_witness :
    demoPair.generator_cl 5 0 = some demoTx ∧
    demoPair.sensor_cl 5 5 400000 = some demoSweep ∧
    ((demoPair.measure demoEnv 0 5 (some 0)).snd =
        Event.generatorProgram ⟨demoTx, 0 + 1, 14⟩ ::
          Event.sensorProgram ⟨demoSweep, 0 + 3, 10, 1⟩ ::
            (pollEvents demoEnv.polls ⟨demoSweep, 0 + 3, 10, 1⟩ ++
              [Event.retrieve ⟨demoSweep, 0 + 3, 10, 1⟩]) ∧
      (0 : ℚ) + 1 ≤ 0 + 3 ∧
      ((0 : ℚ) + 3) + 10 ≤ ((0 : ℚ) + 1) + 14 ∧
      (10 : ℚ) < 14 ∧
      (2 : ℚ) ≤ ((0 : ℚ) + 3) - ((0 : ℚ) + 1) ∧
      (2 : ℚ) ≤ (((0 : ℚ) + 1) + 14) - (((0 : ℚ) + 3) + 10)) :=
  ⟨rfl, rfl, C3_schedule demoPair demoEnv 0 5 0 demoTx demoSweep rfl rfl⟩

/-- `countP` over the polling events, for any predicate. -/
lemma pollEvents_countP (q : Event → Bool) (n : ℕ) (p : SpectrumSensorProgram) :
    (pollEvents n p).countP q =
      n * ((if q (Event.isComplete p false) then 1 else 0) +
          (if q (Event.sleep 2) then 1 else 0)) +
        (if q (Event.isComplete p true) then 1 else 0) := by
  induction n with
  | zero => simp [pollEvents, List.countP_cons]
  | succ k ih =>
    simp only [pollEvents, List.countP_cons, ih]
    ring

/-- Claim C5: with no transmission requested, only the sensing program is
submitted (no generator event appears in the trace), still starting at
`now + 3` for 10 units. -/
theorem C5_noise_only (pair : NodePair) (env : Env) (now f_hz : ℚ)
    (swc : SweepConfig)
    (hs : pair.sensor_cl f_hz f_hz 400000 = some swc) :
    (pair.measure env now f_hz none).snd =
      Event.sensorProgram ⟨swc, now + 3, 10, 1⟩ ::
        (pollEvents env.polls ⟨swc, now + 3, 10, 1⟩ ++
          [Event.retrieve ⟨swc, now + 3, 10, 1⟩]) ∧
    (pair.measure env now f_hz none).snd.countP isGeneratorProgram = 0 := by
  have htrace : (pair.measure env now f_hz none).snd =
      Event.sensorProgram ⟨swc, now + 3, 10, 1⟩ ::
        (pollEvents env.polls ⟨swc, now + 3, 10, 1⟩ ++
          [Event.retrieve ⟨swc, now + 3, 10, 1⟩]) := by
    simp [NodePair.measure, NodePair.senseAndRetrieve, hs]
  refine ⟨htrace, ?_⟩
  rw [htrace]
  simp [List.countP_cons, List.countP_append, pollEvents_countP,
    isGeneratorProgram]

/-- Witness for C5 at a concrete environment and `now = 0`. -/
theorem C5_noise_only_witness :
    demoPair.sensor_cl 5 5 400000 = some demoSweep ∧
    ((demoPair.measure demoEnv 0 5 none).snd =
        Event.sensorProgram ⟨demoSweep, 0 + 3, 10, 1⟩ ::
          (pollEvents demoEnv.polls ⟨demoSweep, 0 + 3, 10, 1⟩ ++
            [Event.retrieve ⟨demoSweep, 0 + 3, 10, 1⟩]) ∧
      (demoPair.measure demoEnv 0 5 none).snd.countP isGeneratorProgram = 0) :=
  ⟨rfl, C5_noise_only demoPair demoEnv 0 5 demoSweep rfl⟩

/-- In the polling tail (any number of false polls, the final true poll,
then the retrieval), every retrieval concerns a completed program. -/
lemma retrievesAfterComplete_pollTail (n : ℕ) (p : SpectrumSensorProgram)
    (done : List SpectrumSensorProgram) :
    retrievesAfterComplete done (pollEvents n p ++ [Event.retrieve p]) = true := by
  induction n generalizing done with
  | zero => simp [pollEvents, retrievesAfterComplete]
  | succ k ih => simp [pollEvents, retrievesAfterComplete, ih]

/-- In the polling tail, every false poll is immediately followed by a
sleep of 2 time units. -/
lemma pollsSleepTwo_pollTail (n : ℕ) (p : SpectrumSensorProgram) :
    pollsSleepTwo (pollEvents n p ++ [Event.retrieve p]) = true := by
  induction n with
  | zero => simp [pollEvents, pollsSleepTwo]
  | succ k ih => simp [pollEvents, pollsSleepTwo, ih]

/-- The successful sensing trace, after the program submission event. -/
lemma measure_ok_trace (pair : NodePair) (env : Env) (now f_hz : ℚ)
    (optx : Option ℚ) (s : List ℚ)
    (h : (pair.measure env now f_hz optx).fst = Except.ok s) :
    ∃ pre swc,
      (pre = ([] : List Event) ∨ ∃ gp, pre = [Event.generatorProgram gp]) ∧
      (pair.measure env now f_hz optx).snd =
        pre ++ Event.sensorProgram ⟨swc, now + 3, 10, 1⟩ ::
          (pollEvents env.polls ⟨swc, now + 3, 10, 1⟩ ++
            [Event.retrieve ⟨swc, now + 3, 10, 1⟩]) := by
  cases optx with
  | none =>
    cases hs : pair.sensor_cl f_hz f_hz 400000 with
    | none => simp [NodePair.measure, NodePair.senseAndRetrieve, hs] at h
    | some swc =>
      exact ⟨[], swc, Or.inl rfl,
        by simp [NodePair.measure, NodePair.senseAndRetrieve, hs]⟩
  | some ptx =>
    cases ht : pair.generator_cl f_hz ptx with
    | none => simp [NodePair.measure, ht] at h
    | some txc =>
      cases hs : pair.sensor_cl f_hz f_hz 400000 with
      | none => simp [NodePair.measure, NodePair.senseAndRetrieve, ht, hs] at h
      | some swc =>
        exact ⟨[Event.generatorProgram ⟨txc, now + 1, 14⟩], swc,
          Or.inr ⟨_, rfl⟩,
          by simp [NodePair.measure, NodePair.senseAndRetrieve, ht, hs]⟩

/-- Claim C6: in every successful execution of `measure`, the result is
retrieved only after `is_complete` has answered `true`; `measure` polls at
a fixed 2-unit interval with a sleep after every unsuccessful poll, with
no iteration cap (the environment may require any number of polls), and
issues exactly one retrieval. -/
theorem C6_polling (pair : NodePair) (env : Env) (now f_hz : ℚ)
    (optx : Option ℚ) (s : List ℚ)
    (h : (pair.measure env now f_hz optx).fst = Except.ok s) :
    retrievesAfterComplete [] (pair.measure env now f_hz optx).snd = true ∧
    pollsSleepTwo (pair.measure env now f_hz optx).snd = true ∧
    (pair.measure env now f_hz optx).snd.countP isRetrieve = 1 ∧
    (pair.measure env now f_hz optx).snd.countP isPollTrue = 1 ∧
    (pair.measure env now f_hz optx).snd.countP isPollFalse = env.polls ∧
    (pair.measure env now f_hz optx).snd.countP isSleepEvent = env.polls := by
  obtain ⟨pre, swc, hpre, htrace⟩ :=
    measure_ok_trace pair env now f_hz optx s h
  rw [htrace]
  have hcounts : ∀ q : Event → Bool,
      (pre ++ Event.sensorProgram ⟨swc, now + 3, 10, 1⟩ ::
        (pollEvents env.polls ⟨swc, now + 3, 10, 1⟩ ++
          [Event.retrieve ⟨swc, now + 3, 10, 1⟩])).countP q =
      pre.countP q + (if q (Event.sensorProgram ⟨swc, now + 3, 10, 1⟩) then 1 else 0) +
        (pollEvents env.polls ⟨swc, now + 3, 10, 1⟩).countP q +
        (if q (Event.retrieve ⟨swc, now + 3, 10, 1⟩) then 1 else 0) := by
    intro q
    simp [List.countP_append, List.countP_cons]
    ring
  have hpre0 : ∀ q : Event → Bool,
      (∀ gp, q (Event.generatorProgram gp) = false) → pre.countP q = 0 := by
    intro q hq
    rcases hpre with h0 | ⟨gp, hgp⟩
    · rw [h0]; rfl
    · rw [hgp]; simp [List.countP_cons, hq]
  constructor
  · rcases hpre with h0 | ⟨gp, hgp⟩
    · rw [h0]
      simp [retrievesAfterComplete, retrievesAfterComplete_pollTail]
    · rw [hgp]
      simp [retrievesAfterComplete, retrievesAfterComplete_pollTail]
  constructor
  · rcases hpre with h0 | ⟨gp, hgp⟩
    · rw [h0]
      simp [pollsSleepTwo, pollsSleepTwo_pollTail]
    · rw [hgp]
      simp [pollsSleepTwo, pollsSleepTwo_pollTail]
  refine ⟨?_, ?_, ?_, ?_⟩ <;>
    rw [hcounts] <;>
    simp [hpre0, pollEvents_countP, isRetrieve, isPollTrue, isPollFalse,
      isSleepEvent]

/-- Witness for C6 at a concrete environment requiring one unsuccessful
poll. -/
theorem C6_polling_witness :
    (demoPair.measure demoEnv 0 5 none).fst = Except.ok [-50, -60] ∧
    (retrievesAfterComplete [] (demoPair.measure demoEnv 0 5 none).snd = true ∧
      pollsSleepTwo (demoPair.measure demoEnv 0 5 none).snd = true ∧
      (demoPair.measure demoEnv 0 5 none).snd.countP isRetrieve = 1 ∧
      (demoPair.measure demoEnv 0 5 none).snd.countP isPollTrue = 1 ∧
      (demoPair.measure demoEnv 0 5 none).snd.countP isPollFalse = demoEnv.polls ∧
      (demoPair.measure demoEnv 0 5 none).snd.countP isSleepEvent = demoEnv.polls) :=
  ⟨rfl, C6_polling demoPair demoEnv 0 5 none [-50, -60] rfl⟩

/-- No call to `measure` ever queries a configuration catalog. -/
lemma measure_no_catalog_query (pair : NodePair) (env : Env) (now f_hz : ℚ)
    (optx : Option ℚ) :
    (pair.measure env now f_hz optx).snd.countP isCatalogQuery = 0 := by
  have hsense : (pair.senseAndRetrieve env now f_hz).snd.countP isCatalogQuery = 0 := by
    cases hs : pair.sensor_cl f_hz f_hz 400000 with
    | none => simp [NodePair.senseAndRetrieve, hs]
    | some swc =>
      simp [NodePair.senseAndRetrieve, hs, List.countP_cons,
        List.countP_append, pollEvents_countP, isCatalogQuery]
  cases optx with
  | none => simpa [NodePair.measure] using hsense
  | some ptx =>
    cases ht : pair.generator_cl f_hz ptx with
    | none => simp [NodePair.measure, ht]
    | some txc =>
      simpa [NodePair.measure, ht, List.countP_cons, isCatalogQuery]
        using hsense

/-- Claim C7: each node's configuration catalog is queried exactly once,
in the constructor, whose cached pair is exactly the environment's two
catalogs; neither `measure` nor `get_channel_gain` ever issues another
catalog query. -/
theorem C7_catalog_once (env : Env) (pair : NodePair)
    (now1 now2 f_hz ptx : ℚ) (optx : Option ℚ) :
    (NodePair.init env).snd.countP
      (fun e => decide (e = Event.queryTxConfigList)) = 1 ∧
    (NodePair.init env).snd.countP
      (fun e => decide (e = Event.querySweepConfigList)) = 1 ∧
    (NodePair.init env).fst.generator_cl = env.txCatalog ∧
    (NodePair.init env).fst.sensor_cl = env.rxCatalog ∧
    (pair.measure env now1 f_hz optx).snd.countP isCatalogQuery = 0 ∧
    (pair.get_channel_gain env now1 now2 f_hz ptx).snd.countP isCatalogQuery = 0 := by
  refine ⟨rfl, rfl, rfl, rfl, measure_no_catalog_query pair env now1 f_hz optx, ?_⟩
  have h1 := measure_no_catalog_query pair env now1 f_hz none
  have h2 := measure_no_catalog_query pair env now2 f_hz (some ptx)
  rw [NodePair.get_channel_gain]
  cases hn : (pair.measure env now1 f_hz none).fst with
  | error e => simpa [hn] using h1
  | ok pnoise =>
    cases hsig : (pair.measure env now2 f_hz (some ptx)).fst with
    | error e => simp [hn, hsig, List.countP_append, h1, h2]
    | ok prx => simp [hn, hsig, List.countP_append, h1, h2]

/-- Claim C8 as stated is false: raising the transmit power from 0 dBm to
1 dBm with the measured data held constant leaves the contributing mean
linear signal power exactly unchanged, not strictly increased. -/
theorem C8_counterexample :
    (demoPair.measure demoEnv 0 5 (some 0)).fst = Except.ok [-50, -60] ∧
    (demoPair.measure demoEnv 0 5 (some 1)).fst = Except.ok [-50, -60] ∧
    ¬ prx_mw_mean_of [-50, -60] < prx_mw_mean_of [-50, -60] :=
  ⟨rfl, rfl, lt_irrefl _⟩

/-- Claim C8 (amended): the gain estimate's contributing signal mean is
computed from the measured signal series alone; changing `tx_power_dbm`
while the measured data is held constant leaves it unchanged. -/
theorem C8_amended (pair : NodePair) (env : Env) (now f_hz ptx ptx' : ℚ)
    (s s' : List ℚ)
    (h : (pair.measure env now f_hz (some ptx)).fst = Except.ok s)
    (h' : (pair.measure env now f_hz (some ptx')).fst = Except.ok s') :
    prx_mw_mean_of s' = prx_mw_mean_of s := by
  cases h1 : pair.generator_cl f_hz ptx with
  | none => simp [NodePair.measure, h1] at h
  | some txc =>
    cases h2 : pair.generator_cl f_hz ptx' with
    | none => simp [NodePair.measure, h2] at h'
    | some txc' =>
      cases h3 : pair.sensor_cl f_hz f_hz 400000 with
      | none => simp [NodePair.measure, NodePair.senseAndRetrieve, h1, h3] at h
      | some swc =>
        simp [NodePair.measure, NodePair.senseAndRetrieve, h1, h2, h3] at h h'
        rw [← h, ← h']

/-- Witness for C8 (amended) at a concrete environment, with powers 0 and
1 dBm. -/
theorem C8_amended_witness :
    (demoPair.measure demoEnv 0 5 (some 0)).fst = Except.ok [-50, -60] ∧
    (demoPair.measure demoEnv 0 5 (some 1)).fst = Except.ok [-50, -60] ∧
    prx_mw_mean_of [-50, -60] = prx_mw_mean_of [-50, -60] :=
  ⟨rfl, rfl, C8_amended demoPair demoEnv 0 5 0 1 [-50, -60] [-50, -60] rfl rfl⟩

/-- The mean is invariant under permutation of the series. -/
lemma mean_perm {l₁ l₂ : List ℝ} (h : l₁.Perm l₂) : mean l₁ = mean l₂ := by
  unfold mean
  rw [h.sum_eq, h.length_eq]

/-- The gain arithmetic is invariant under permutations of both series. -/
lemma gainFromSeries_perm {n n' s s' : List ℚ} (hn : n'.Perm n)
    (hs : s'.Perm s) (p : ℚ) :
    gainFromSeries n' s' p = gainFromSeries n s p := by
  unfold gainFromSeries prx_mw_mean_of
  rw [mean_perm (hn.map _), mean_perm (hs.map _)]

/-- Claim C10: the gain computed by `get_channel_gain` is unchanged when
the rows the sensing node returns (hence the samples within the noise
series and within the signal series) are permuted, because only the mean
of each series enters the gain computation. -/
theorem C10_perm_invariant (pair : NodePair) (env env' : Env)
    (now1 now2 f_hz ptx : ℚ) (swc : SweepConfig)
    (hs : pair.sensor_cl f_hz f_hz 400000 = some swc)
    (hnoise : (env'.retrieveData ⟨swc, now1 + 3, 10, 1⟩).Perm
      (env.retrieveData ⟨swc, now1 + 3, 10, 1⟩))
    (hsig : (env'.retrieveData ⟨swc, now2 + 3, 10, 1⟩).Perm
      (env.retrieveData ⟨swc, now2 + 3, 10, 1⟩)) :
    (pair.get_channel_gain env' now1 now2 f_hz ptx).fst =
      (pair.get_channel_gain env now1 now2 f_hz ptx).fst := by
  cases ht : pair.generator_cl f_hz ptx with
  | none =>
    simp [NodePair.get_channel_gain, NodePair.measure,
      NodePair.senseAndRetrieve, hs, ht]
  | some txc =>
    simp only [NodePair.get_channel_gain, NodePair.measure,
      NodePair.senseAndRetrieve, hs, ht]
    exact congrArg Except.ok
      (gainFromSeries_perm (hnoise.map _) (hsig.map _) ptx)

/-- Witness for C10: the same measurement with the two rows of every
retrieval swapped yields the same gain. -/
theorem C10_perm_invariant_witness :
    demoPair.sensor_cl 5 5 400000 = some demoSweep ∧
    (permEnv.retrieveData ⟨demoSweep, 0 + 3, 10, 1⟩).Perm
      (demoEnv.retrieveData ⟨demoSweep, 0 + 3, 10, 1⟩) ∧
    (permEnv.retrieveData ⟨demoSweep, 7 + 3, 10, 1⟩).Perm
      (demoEnv.retrieveData ⟨demoSweep, 7 + 3, 10, 1⟩) ∧
    (demoPair.get_channel_gain permEnv 0 7 5 0).fst =
      (demoPair.get_channel_gain demoEnv 0 7 5 0).fst :=
  ⟨rfl, List.Perm.swap [-50] [-60] [], List.Perm.swap [-50] [-60] [],
    C10_perm_invariant demoPair demoEnv permEnv 0 7 5 0 demoSweep rfl
      (List.Perm.swap [-50] [-60] []) (List.Perm.swap [-50] [-60] [])⟩

/-- Claim C4 fails on the code: with the measured signal series equal to
the measured noise series (mean linear gain exactly zero),
`get_channel_gain` does not surface a below-noise-floor condition — it
silently returns the decibel conversion of the non-positive linear gain
(`10·log10(0)`, i.e. `-inf`/NaN in floating point). -/
theorem C4_below_floor_not_surfaced :
    (demoPair.get_channel_gain demoEnv 0 0 5 0).fst = Except.ok (mw_to_db 0) := by
  have h : (demoPair.get_channel_gain demoEnv 0 0 5 0).fst =
      Except.ok (gainFromSeries [-50, -60] [-50, -60] 0) := rfl
  rw [h]
  unfold gainFromSeries prx_mw_mean_of
  simp [sub_self]
